import Mathlib

/-!
Verification development for the rag-ksd repository.

The repository ingests documents, splits them into overlapping chunks,
embeds the chunks, and answers queries by ranking stored chunks by vector
similarity.  This file gives a shallow embedding of the core functions
(`search_similar_chunks`, `save_document_to_db`, `save_chunks_to_db`,
`process_and_save`, `rag_search`, `create_splitter` / `split_text`, and the
schema created by alembic migration 002) and proves or refutes the frozen
claims about the specification.

External collaborators (the PostgreSQL `<=>` cosine-distance operator, the
SHA-256 hash, the langchain text splitter and the OpenAI embedding provider)
are represented by explicit function parameters: the theorems hold for every
choice of collaborator behaviour, exactly as the code makes no assumption
about them beyond their interface.
-/

/-! ## Data model: rows of the `document` and `document_chunk` tables
(alembic migration `002_create_document_tables.py`). -/

/-- A row of `public.document` as created by migration 002:
columns `id`, `source_url`, `title`, `content`, `content_hash`, plus
`created_at` (timestamps are irrelevant to every claim and omitted). -/
structure DocumentRow where
  id : Nat
  source_url : String
  title : String
  content : String
  content_hash : String
deriving DecidableEq

/-- A row of `public.document_chunk` as created by migration 002 and written
by `save_chunks_to_db`: `document_id`, `chunk_index`, `content`, `embedding`
(`embedding` is nullable until computed). -/
structure ChunkRow where
  document_id : Nat
  chunk_index : Nat
  content : String
  embedding : Option (List ℚ)
deriving DecidableEq

/-- The persistent database state seen by the ingestion functions:
the two tables plus the next auto-increment value of `document.id`. -/
structure DBState where
  documents : List DocumentRow
  chunks : List ChunkRow
  nextDocId : Nat
deriving DecidableEq

/-! ## Migration 002 schema (src/db/alembic/versions/002_create_document_tables.py)

`upgrade()` creates the `document` table with a single
`PrimaryKeyConstraint('id')` and NO unique constraint on any other column,
then calls `op.create_index('idx_document_content_hash', 'document',
['content_hash'])` without a `unique=True` flag, i.e. a plain non-unique
index.  The `document_chunk` table gets an `embedding vector(1536)` column. -/

/-- Description of an SQL index as issued by the migration. -/
structure IndexSpec where
  name : String
  table : String
  columns : List String
  unique : Bool
deriving DecidableEq

/-- Description of a created table: its columns, primary key and the list of
unique constraints declared on it. -/
structure TableSpec where
  name : String
  columns : List String
  primaryKey : List String
  uniqueConstraints : List (List String)
deriving DecidableEq

/-- The `document` table of migration 002: six columns, primary key `id`,
and no unique constraint (in particular none on `content_hash`). -/
def documentTable : TableSpec :=
  { name := "document"
    columns := ["id", "source_url", "title", "content", "content_hash", "created_at"]
    primaryKey := ["id"]
    uniqueConstraints := [] }

/-- The index migration 002 creates on `document.content_hash`:
`op.create_index` is called without `unique=True`, so it is non-unique. -/
def idxDocumentContentHash : IndexSpec :=
  { name := "idx_document_content_hash"
    table := "document"
    columns := ["content_hash"]
    unique := false }

/-- The dimensionality of the `embedding vector(1536)` column added to
`public.document_chunk` by migration 002. -/
def documentChunkEmbeddingDimensions : Nat := 1536

/-- What the persistence layer of migration 002 actually enforces on the
`document` table: only the primary key, i.e. distinct `id` values
(`uniqueConstraints` is empty, and the `content_hash` index is non-unique,
so it constrains nothing). -/
def documentTableConstraintsHold (rows : List DocumentRow) : Prop :=
  (rows.map DocumentRow.id).Nodup

instance : DecidablePred documentTableConstraintsHold := fun rows =>
  inferInstanceAs (Decidable ((rows.map DocumentRow.id).Nodup))

/-! ## Embedding client configuration

`src/app/utils/rag_tools.py` builds `OpenAIEmbeddings(..., dimensions=1024)`
("匹配数据库中的向量维度"), and `src/ingestion/fetch_dzbgs.py`
`get_embeddings_model` likewise passes `dimensions=1024`
("指定生成 1024 维度的向量，匹配数据库 schema"). -/

/-- `dimensions` argument of the embeddings model in
`src/app/utils/rag_tools.py` `get_embeddings_model`. -/
def ragToolsEmbeddingDimensions : Nat := 1024

/-- `dimensions` argument of the embeddings model in
`src/ingestion/fetch_dzbgs.py` `get_embeddings_model`. -/
def ingestionEmbeddingDimensions : Nat := 1024

/-- A pgvector column of dimension `d` accepts exactly the vectors of length
`d`; a vector of any other length is rejected with an error at insert time
(never truncated or padded). -/
def vectorColumnAccepts (d : Nat) (v : List ℚ) : Bool :=
  v.length == d

/-! ## Similarity search (src/app/utils/db_tools.py `search_similar_chunks`)

The SQL query joins `document_chunk` (rows with non-NULL embedding) with
`document`, computes `1 - (embedding <=> query)` as `similarity`, orders by
`similarity DESC` and applies `LIMIT top_k * 2` (the code comment says
"多查询一些，然后过滤": fetch extra, then filter).  Python then converts each
similarity (`float(similarity) if similarity else 0.0`) and keeps exactly
the rows with `similarity_value >= similarity_threshold` — it never
truncates the filtered list back to `top_k`. -/

/-- One row of the SQL join: a chunk with a non-NULL embedding together with
its document's title and source_url. -/
structure EmbeddedChunk where
  id : Nat
  document_id : Nat
  chunk_index : Nat
  content : String
  embedding : List ℚ
  document_title : String
  document_url : String
deriving DecidableEq

/-- One element of the list returned by `search_similar_chunks`. -/
structure SearchResult where
  id : Nat
  document_id : Nat
  chunk_index : Nat
  content : String
  similarity : ℚ
  document_title : String
  document_url : String
deriving DecidableEq

/-- The `SELECT` list of the similarity CTE: every joined row scored with
`1 - (dc.embedding <=> %s::vector)`, where `dist` is the external pgvector
cosine-distance operator `<=>`. -/
def similarityScores (dist : List ℚ → List ℚ → ℚ) (queryEmbedding : List ℚ)
    (rows : List EmbeddedChunk) : List SearchResult :=
  rows.map fun r =>
    { id := r.id
      document_id := r.document_id
      chunk_index := r.chunk_index
      content := r.content
      similarity := 1 - dist r.embedding queryEmbedding
      document_title := r.document_title
      document_url := r.document_url }

/-- The `ORDER BY similarity DESC` ordering: row `a` may come before `b`
when `b.similarity ≤ a.similarity`. -/
def simDescOrder (a b : SearchResult) : Prop :=
  b.similarity ≤ a.similarity

instance : DecidableRel simDescOrder := fun a b =>
  inferInstanceAs (Decidable (b.similarity ≤ a.similarity))

/-- `ORDER BY similarity DESC LIMIT lim`: sort the scored rows by descending
similarity and keep the first `lim`. -/
def sqlTopRows (dist : List ℚ → List ℚ → ℚ) (queryEmbedding : List ℚ)
    (rows : List EmbeddedChunk) (lim : Nat) : List SearchResult :=
  ((similarityScores dist queryEmbedding rows).insertionSort simDescOrder).take lim

/-- Python's `float(similarity) if similarity else 0.0`: a falsy similarity
(the float `0.0`) is replaced by `0.0`, anything else kept. -/
def pyFloatValue (s : ℚ) : ℚ :=
  if s == 0 then 0 else s

/-- The pure core of `search_similar_chunks`, after a connection has been
obtained and no exception occurs: if the count of embedded chunks is zero
return `[]`; otherwise fetch the `top_k * 2` best-scored rows and keep those
with `similarity_value >= similarity_threshold`. -/
def search_similar_chunks_core (dist : List ℚ → List ℚ → ℚ)
    (queryEmbedding : List ℚ) (topK : Nat) (similarity_threshold : ℚ)
    (rows : List EmbeddedChunk) : List SearchResult :=
  if rows.isEmpty then []
  else
    ((sqlTopRows dist queryEmbedding rows (topK * 2)).map
        (fun r => { r with similarity := pyFloatValue r.similarity })).filter
      (fun r => similarity_threshold ≤ r.similarity)

/-! ## Effectful wrapper: connection handling and exception conversion -/

/-- A `psycopg2.OperationalError` raised by `psycopg2.connect`. -/
structure OperationalError where
  msg : String
deriving DecidableEq

/-- The `ConnectionError` that `get_db_connection` raises in its place. -/
structure DBConnectionError where
  msg : String
deriving DecidableEq

/-- An open connection, as the rest of `search_similar_chunks` sees it: the
embedded-chunk rows it can read, plus whether some exception is raised during
query execution or result processing (`execFault`). -/
structure DBConn where
  embeddedChunks : List EmbeddedChunk
  execFault : Bool
deriving DecidableEq

/-- `get_db_connection` (src/app/utils/db_tools.py): `psycopg2.connect`,
with `psycopg2.OperationalError` converted to `ConnectionError`. -/
def get_db_connection (outcome : Except OperationalError DBConn) :
    Except DBConnectionError DBConn :=
  match outcome with
  | .error e => .error ⟨"数据库连接失败: " ++ e.msg⟩
  | .ok conn => .ok conn

/-- `search_similar_chunks` with its control flow made explicit:
an empty `query_embedding` returns `[]` before any connection attempt;
then the connection is obtained (its failure is the only raised error);
once connected, the whole body sits in `try ... except Exception: return []`,
so any execution fault also yields `[]`. -/
def search_similar_chunks (dist : List ℚ → List ℚ → ℚ)
    (queryEmbedding : List ℚ) (topK : Nat) (similarity_threshold : ℚ)
    (connOutcome : Except OperationalError DBConn) :
    Except DBConnectionError (List SearchResult) :=
  if queryEmbedding.isEmpty then .ok []
  else
    match get_db_connection connOutcome with
    | .error e => .error e
    | .ok conn =>
        if conn.execFault then .ok []
        else .ok (search_similar_chunks_core dist queryEmbedding topK
          similarity_threshold conn.embeddedChunks)

/-! ## Ingestion (src/ingestion/fetch_dzbgs.py)

`calculate_hash` is `hashlib.sha256(...).hexdigest()`; the SHA-256 digest,
the langchain splitter behind `split_text` and the OpenAI
`embed_documents` call are external collaborators, so the pipeline is
parameterised over them. -/

/-- The external collaborators of the ingestion pipeline:
`hash` models `hashlib.sha256(text.encode()).hexdigest()` (`calculate_hash`),
`split` models `RecursiveCharacterTextSplitter(...).split_text`
(`ingestion.splitter.split_text`), and
`embed` models `embeddings_model.embed_documents`. -/
structure IngestEnv where
  hash : String → String
  split : String → Nat → Nat → List String
  embed : List String → List (List ℚ)

/-- The observable side effects performed by one pipeline run: how many
times the splitter ran, how many embedding requests were made, and how many
`INSERT` statements were issued on each table. -/
structure RunLog where
  splitCalls : Nat
  embedCalls : Nat
  documentInserts : Nat
  chunkInserts : Nat
deriving DecidableEq

/-- `save_document_to_db(url, title, content, content_hash)`: first
`SELECT id FROM document WHERE content_hash = %s`; if a row exists its id is
returned and nothing is written; otherwise the document is inserted and the
new id returned.  The result carries the id, the new state and the number of
document inserts performed. -/
def save_document_to_db (url title content content_hash : String)
    (st : DBState) : Nat × DBState × Nat :=
  match st.documents.find? (fun d => d.content_hash == content_hash) with
  | some existing => (existing.id, st, 0)
  | none =>
      (st.nextDocId,
        { st with
          documents := st.documents ++
            [{ id := st.nextDocId, source_url := url, title := title
               content := content, content_hash := content_hash }]
          nextDocId := st.nextDocId + 1 },
        1)

/-- The chunk rows inserted by `save_chunks_to_db`'s loop
`for idx, (chunk_text, embedding) in enumerate(zip(chunks, embeddings))`. -/
def chunkRowsFor (document_id : Nat) (chunks : List String)
    (embeddings : List (List ℚ)) : List ChunkRow :=
  (chunks.zip embeddings).enum.map fun p =>
    { document_id := document_id
      chunk_index := p.1
      content := p.2.1
      embedding := some p.2.2 }

/-- `save_chunks_to_db(document_id, chunks, embeddings_model)`: when
`chunks` is empty it returns at once; otherwise it calls
`embed_documents(chunks)` once and inserts one row per
`enumerate(zip(chunks, embeddings))` element, committing at the end.
Returns the new state and the run log of this call. -/
def save_chunks_to_db (document_id : Nat) (chunks : List String)
    (env : IngestEnv) (st : DBState) : DBState × RunLog :=
  if chunks.isEmpty then (st, ⟨0, 0, 0, 0⟩)
  else
    let embeddings := env.embed chunks
    let newRows := chunkRowsFor document_id chunks embeddings
    ({ st with chunks := st.chunks ++ newRows }, ⟨0, 1, 0, newRows.length⟩)

/-- `COUNT(*) FROM document_chunk WHERE document_id = %s`. -/
def countChunks (document_id : Nat) (st : DBState) : Nat :=
  (st.chunks.filter (fun c => c.document_id == document_id)).length

/-- Python's `not text or not text.strip()`: true exactly when `text` is
empty or consists only of whitespace. -/
def isBlank (text : String) : Bool :=
  text.data.all Char.isWhitespace

/-- `process_and_save(data, embeddings_model)`: skip blank content; compute
the hash; `save_document_to_db`; if the document already has chunks, return
("跳过重新生成"); otherwise `split_text(text, chunk_size=500,
chunk_overlap=100)` and `save_chunks_to_db`.  Returns the new state and the
run log. -/
def process_and_save (url title text : String) (env : IngestEnv)
    (st : DBState) : DBState × RunLog :=
  if isBlank text then (st, ⟨0, 0, 0, 0⟩)
  else
    let content_hash := env.hash text
    let r := save_document_to_db url title text content_hash st
    let doc_id := r.1
    let st1 := r.2.1
    let docInserts := r.2.2
    if 0 < countChunks doc_id st1 then (st1, ⟨0, 0, docInserts, 0⟩)
    else
      let chunks := env.split text 500 100
      let r2 := save_chunks_to_db doc_id chunks env st1
      (r2.1, { r2.2 with splitCalls := 1, documentInserts := docInserts })

/-! ## Chunker parameters (src/ingestion/splitter.py)

`create_splitter` forwards `chunk_size` and `chunk_overlap` unchanged to
`RecursiveCharacterTextSplitter` and performs no validation of its own; the
repository defines no `InvalidParameters` error anywhere. -/

/-- The configuration `create_splitter` hands to the external splitter. -/
structure SplitterConfig where
  chunk_size : Int
  chunk_overlap : Int
deriving DecidableEq

/-- Modelled from the third-party langchain `TextSplitter` constructor (the
only parameter validation on the `split_text` path; it is not repository
code): it raises `ValueError` exactly when `chunk_overlap > chunk_size`, and
checks nothing else — neither `chunk_overlap == chunk_size` nor
`chunk_size <= 0` is rejected. -/
def textSplitterInit (chunk_size chunk_overlap : Int) :
    Except String SplitterConfig :=
  if chunk_size < chunk_overlap then
    .error ("Got a larger chunk overlap than chunk size, should be smaller.")
  else .ok { chunk_size := chunk_size, chunk_overlap := chunk_overlap }

/-- `create_splitter(chunk_size, chunk_overlap)` (src/ingestion/splitter.py):
builds the kwargs dict and constructs `RecursiveCharacterTextSplitter`;
the repository code adds no check of its own. -/
def create_splitter (chunk_size chunk_overlap : Int) :
    Except String SplitterConfig :=
  textSplitterInit chunk_size chunk_overlap

/-- The parameter handling of `split_text(text, chunk_size, chunk_overlap)`:
it calls `create_splitter` and then delegates to the external splitter, so
its parameter acceptance is exactly `create_splitter`'s. -/
def split_text_params (chunk_size chunk_overlap : Int) :
    Except String SplitterConfig :=
  create_splitter chunk_size chunk_overlap

/-! ## Retrieval tool (src/app/utils/rag_tools.py `rag_search`)

The whole body of `rag_search` sits in a single `try` block that starts by
embedding the query — there is no validation of `query` of any kind (the
repository defines no `EmptyQueryError`), so even an empty or whitespace
query is sent straight to the embedding provider.  Any exception raised in
the body (including one from the embedding call) is caught and rendered as
the string "检索过程中发生错误: ...". -/

/-- The outcome of the external `embeddings_model.embed_query(query)` call:
either a vector or a raised exception. -/
inductive EmbedOutcome where
  | ok (v : List ℚ)
  | raise (msg : String)
deriving DecidableEq

/-- What `rag_search` returns, with the final string formatting abstracted
to the data it is built from: the caught-exception message string, the
literal "未找到相关文档", or the formatted listing of the retrieved chunks. -/
inductive RagSearchResult where
  | errorString (msg : String)
  | noDocuments
  | formatted (chunks : List SearchResult)
deriving DecidableEq

/-- Count of embedding-provider calls performed by one `rag_search` call. -/
structure RagTrace where
  embedCalls : Nat
deriving DecidableEq

/-- `rag_search(query, top_k, similarity_threshold)`: embed the query
(always — no empty-query check), call `search_similar_chunks`, and format;
exceptions anywhere in the body are caught and returned as an error
string. -/
def rag_search (query : String) (topK : Nat) (similarity_threshold : ℚ)
    (embedOutcome : String → EmbedOutcome) (dist : List ℚ → List ℚ → ℚ)
    (connOutcome : Except OperationalError DBConn) :
    RagSearchResult × RagTrace :=
  match embedOutcome query with
  | .raise msg => (.errorString ("检索过程中发生错误: " ++ msg), ⟨1⟩)
  | .ok queryEmbedding =>
      match search_similar_chunks dist queryEmbedding topK
          similarity_threshold connOutcome with
      | .error e => (.errorString ("检索过程中发生错误: " ++ e.msg), ⟨1⟩)
      | .ok [] => (.noDocuments, ⟨1⟩)
      | .ok similar_chunks => (.formatted similar_chunks, ⟨1⟩)

/-! ## Concrete instances used by the witness theorems -/

/-- A degenerate distance collaborator: every pair of vectors at distance 0
(so every scored similarity is 1). -/
def dZero : List ℚ → List ℚ → ℚ := fun _ _ => 0

/-- A sample embedded chunk. -/
def wChunkA : EmbeddedChunk := ⟨1, 1, 0, "A", [1], "t", "u"⟩

/-- A second sample embedded chunk of the same document. -/
def wChunkB : EmbeddedChunk := ⟨2, 1, 1, "B", [1], "t", "u"⟩

/-- `wChunkA` scored with `dZero`: similarity `1 - 0 = 1`. -/
def wScoredA : SearchResult := ⟨1, 1, 0, "A", 1, "t", "u"⟩

/-- A concrete ingestion environment: identity digest, one chunk per
document, empty vectors. -/
def envW : IngestEnv := ⟨fun s => s, fun t _ _ => [t], fun l => l.map (fun _ => [])⟩

instance : IsTotal SearchResult simDescOrder :=
  ⟨fun a b => le_total b.similarity a.similarity⟩

instance : IsTrans SearchResult simDescOrder :=
  ⟨fun _ _ _ h1 h2 => le_trans h2 h1⟩

/-! ## Helper lemmas -/

/-- Python's falsy-check conversion is the identity on similarity values. -/
theorem pyFloatValue_eq (s : ℚ) : pyFloatValue s = s := by
  unfold pyFloatValue
  split
  · next h => exact (eq_of_beq h).symm
  · rfl

theorem map_pyFloatValue_eq (l : List SearchResult) :
    l.map (fun r => { r with similarity := pyFloatValue r.similarity }) = l := by
  simp [pyFloatValue_eq]

/-- The rows delivered by the `ORDER BY similarity DESC LIMIT lim` query are
pairwise non-increasing in similarity. -/
theorem sqlTopRows_sorted (dist : List ℚ → List ℚ → ℚ) (q : List ℚ)
    (rows : List EmbeddedChunk) (lim : Nat) :
    (sqlTopRows dist q rows lim).Pairwise simDescOrder :=
  List.Pairwise.sublist (List.take_sublist lim _)
    (List.sorted_insertionSort simDescOrder (similarityScores dist q rows))

/-! ## Claim theorems -/

/-- Claim C1 (refuted; evaluation at the failing input). The claim says
`search_similar_chunks` returns at most `top_k` results.  The SQL query uses
`LIMIT top_k * 2` and the Python threshold filter never truncates back to
`top_k`, so with `top_k = 1`, threshold `0` and a store of two embedded
chunks (both at similarity 1) the function returns 2 results, exceeding
`top_k`. -/
theorem search_similar_chunks_exceeds_top_k :
    (search_similar_chunks_core dZero [1] 1 0 [wChunkA, wChunkB]).length = 2
    ∧ 1 < (search_similar_chunks_core dZero [1] 1 0 [wChunkA, wChunkB]).length := by
  norm_num [search_similar_chunks_core, sqlTopRows, similarityScores,
    List.insertionSort, List.orderedInsert, pyFloatValue, simDescOrder,
    wChunkA, wChunkB, dZero]

/-- Claim C2 (counterexample). The claim says the persistence layer enforces
uniqueness of `content_hash`.  Migration 002 declares no unique constraint
on the `document` table and its `content_hash` index is non-unique, so the
persistence layer accepts two rows with the same hash (only distinct `id`s
are required). -/
theorem document_store_accepts_duplicate_hash :
    documentTable.uniqueConstraints = []
    ∧ idxDocumentContentHash.unique = false
    ∧ documentTableConstraintsHold
        [⟨1, "u1", "t1", "c1", "h"⟩, ⟨2, "u2", "t2", "c2", "h"⟩]
    ∧ ¬ ((([⟨1, "u1", "t1", "c1", "h"⟩, ⟨2, "u2", "t2", "c2", "h"⟩] :
          List DocumentRow).filter (fun d => d.content_hash == "h")).length ≤ 1) := by
  refine ⟨rfl, rfl, by decide, by decide⟩

/-- Claim C2 (amended). Deduplication of `content_hash` is enforced only by
the caller: the schema's index on `content_hash` is non-unique and the
`document` table has no unique constraint beyond its primary key, but
`save_document_to_db` checks for an existing row with the hash before
inserting and, when one exists, returns its id without writing anything. -/
theorem content_hash_dedup_is_caller_side
    (url title content chash : String) (st : DBState)
    (h : ∃ d ∈ st.documents, d.content_hash = chash) :
    idxDocumentContentHash.unique = false
    ∧ documentTable.uniqueConstraints = []
    ∧ ∃ d ∈ st.documents, d.content_hash = chash
        ∧ save_document_to_db url title content chash st = (d.id, st, 0) := by
  refine ⟨rfl, rfl, ?_⟩
  obtain ⟨d0, hd0, hh0⟩ := h
  match hfind : st.documents.find? (fun d => d.content_hash == chash) with
  | some d =>
      have hp := @List.find?_some DocumentRow
        (fun d => d.content_hash == chash) d st.documents hfind
      refine ⟨d, List.mem_of_find?_eq_some hfind, eq_of_beq hp, ?_⟩
      unfold save_document_to_db
      rw [hfind]
  | none =>
      exfalso
      rw [List.find?_eq_none] at hfind
      exact hfind d0 hd0 (by simp [hh0])

theorem content_hash_dedup_is_caller_side_witness :
    idxDocumentContentHash.unique = false
    ∧ documentTable.uniqueConstraints = []
    ∧ ∃ d ∈ (⟨[⟨7, "u", "t", "c", "h"⟩], [], 8⟩ : DBState).documents,
        d.content_hash = "h"
        ∧ save_document_to_db "u2" "t2" "c" "h" ⟨[⟨7, "u", "t", "c", "h"⟩], [], 8⟩ =
            (d.id, ⟨[⟨7, "u", "t", "c", "h"⟩], [], 8⟩, 0) :=
  content_hash_dedup_is_caller_side "u2" "t2" "c" "h"
    ⟨[⟨7, "u", "t", "c", "h"⟩], [], 8⟩ ⟨⟨7, "u", "t", "c", "h"⟩, by simp, rfl⟩

/-- Claim C3 (confirmed). Ingestion is idempotent: starting from a store
with no document for the content's hash (and whose chunks reference only
existing documents), running `process_and_save` twice on the same non-blank
content leaves exactly one document row with that hash and exactly the one
full chunk set produced by the single chunking pass; the second run changes
nothing and performs no split, no embedding call and no insert. -/
theorem process_and_save_idempotent
    (url title url2 title2 text : String) (env : IngestEnv) (st0 : DBState)
    (htext : isBlank text = false)
    (hnew : ∀ d ∈ st0.documents, d.content_hash ≠ env.hash text)
    (hfresh : ∀ c ∈ st0.chunks, c.document_id ≠ st0.nextDocId)
    (hsplit : env.split text 500 100 ≠ [])
    (hembed : (env.embed (env.split text 500 100)).length =
      (env.split text 500 100).length) :
    process_and_save url2 title2 text env (process_and_save url title text env st0).1
        = ((process_and_save url title text env st0).1, ⟨0, 0, 0, 0⟩)
    ∧ ((process_and_save url title text env st0).1.documents.filter
        (fun d => d.content_hash == env.hash text)).length = 1
    ∧ (process_and_save url title text env st0).1.chunks.filter
        (fun c => c.document_id == st0.nextDocId)
        = chunkRowsFor st0.nextDocId (env.split text 500 100)
            (env.embed (env.split text 500 100))
    ∧ (process_and_save url title text env st0).2
        = ⟨1, 1, 1, (chunkRowsFor st0.nextDocId (env.split text 500 100)
            (env.embed (env.split text 500 100))).length⟩ := by
  have hfind0 : st0.documents.find? (fun d => d.content_hash == env.hash text)
      = none :=
    List.find?_eq_none.mpr (fun d hd => by simp [hnew d hd])
  have hfilter0 : st0.chunks.filter
      (fun c => c.document_id == st0.nextDocId) = [] := by
    rw [List.filter_eq_nil_iff]
    intro c hc
    simp [hfresh c hc]
  have hpsne : (env.split text 500 100).isEmpty = false :=
    List.isEmpty_eq_false.mpr hsplit
  have hrun1 : process_and_save url title text env st0 =
      (⟨st0.documents ++
          [⟨st0.nextDocId, url, title, text, env.hash text⟩],
        st0.chunks ++ chunkRowsFor st0.nextDocId (env.split text 500 100)
          (env.embed (env.split text 500 100)),
        st0.nextDocId + 1⟩,
       ⟨1, 1, 1, (chunkRowsFor st0.nextDocId (env.split text 500 100)
          (env.embed (env.split text 500 100))).length⟩) := by
    unfold process_and_save save_document_to_db save_chunks_to_db countChunks
    rw [htext]
    simp only [Bool.false_eq_true, if_false, hfind0, hfilter0, hpsne]
    rfl
  have hnrlen : (chunkRowsFor st0.nextDocId (env.split text 500 100)
      (env.embed (env.split text 500 100))).length =
      (env.split text 500 100).length := by
    unfold chunkRowsFor
    rw [List.length_map, List.enum_length, List.length_zip, hembed, Nat.min_self]
  have hallnew : (chunkRowsFor st0.nextDocId (env.split text 500 100)
      (env.embed (env.split text 500 100))).filter
      (fun c => c.document_id == st0.nextDocId) =
      chunkRowsFor st0.nextDocId (env.split text 500 100)
        (env.embed (env.split text 500 100)) := by
    rw [List.filter_eq_self]
    intro c hc
    unfold chunkRowsFor at hc
    obtain ⟨p, _, rfl⟩ := List.mem_map.mp hc
    simp
  have hfilter1 : (st0.chunks ++ chunkRowsFor st0.nextDocId
      (env.split text 500 100) (env.embed (env.split text 500 100))).filter
      (fun c => c.document_id == st0.nextDocId) =
      chunkRowsFor st0.nextDocId (env.split text 500 100)
        (env.embed (env.split text 500 100)) := by
    rw [List.filter_append, hfilter0, List.nil_append, hallnew]
  have hcount1 : 0 < (chunkRowsFor st0.nextDocId (env.split text 500 100)
      (env.embed (env.split text 500 100))).length := by
    rw [hnrlen]
    exact List.length_pos.mpr hsplit
  have hfinddoc : (st0.documents ++
      ([⟨st0.nextDocId, url, title, text, env.hash text⟩] : List DocumentRow)).find?
      (fun d => d.content_hash == env.hash text) =
      some ⟨st0.nextDocId, url, title, text, env.hash text⟩ := by
    rw [List.find?_append, hfind0]
    simp
  have hrun2 : process_and_save url2 title2 text env
      (⟨st0.documents ++
          [⟨st0.nextDocId, url, title, text, env.hash text⟩],
        st0.chunks ++ chunkRowsFor st0.nextDocId (env.split text 500 100)
          (env.embed (env.split text 500 100)),
        st0.nextDocId + 1⟩ : DBState) =
      ((⟨st0.documents ++
          [⟨st0.nextDocId, url, title, text, env.hash text⟩],
        st0.chunks ++ chunkRowsFor st0.nextDocId (env.split text 500 100)
          (env.embed (env.split text 500 100)),
        st0.nextDocId + 1⟩ : DBState), ⟨0, 0, 0, 0⟩) := by
    unfold process_and_save save_document_to_db countChunks
    rw [htext]
    simp only [Bool.false_eq_true, if_false, hfinddoc]
    rw [if_pos]
    show 0 < (List.filter _ _).length
    rw [hfilter1]
    exact hcount1
  refine ⟨?_, ?_, ?_, ?_⟩
  · rw [hrun1]
    exact hrun2
  · rw [hrun1]
    simp only [List.filter_append]
    rw [List.filter_eq_nil_iff.mpr (fun d hd => by simp [hnew d hd]),
      List.nil_append]
    simp
  · rw [hrun1]
    exact hfilter1
  · rw [hrun1]

theorem process_and_save_idempotent_witness :
    process_and_save "u2" "t2" "hello world" envW
        (process_and_save "u" "t" "hello world" envW ⟨[], [], 0⟩).1
      = ((process_and_save "u" "t" "hello world" envW ⟨[], [], 0⟩).1, ⟨0, 0, 0, 0⟩)
    ∧ ((process_and_save "u" "t" "hello world" envW ⟨[], [], 0⟩).1.documents.filter
        (fun d => d.content_hash == envW.hash "hello world")).length = 1
    ∧ (process_and_save "u" "t" "hello world" envW ⟨[], [], 0⟩).1.chunks.filter
        (fun c => c.document_id == (⟨[], [], 0⟩ : DBState).nextDocId)
        = chunkRowsFor (⟨[], [], 0⟩ : DBState).nextDocId
            (envW.split "hello world" 500 100)
            (envW.embed (envW.split "hello world" 500 100))
    ∧ (process_and_save "u" "t" "hello world" envW ⟨[], [], 0⟩).2
        = ⟨1, 1, 1, (chunkRowsFor (⟨[], [], 0⟩ : DBState).nextDocId
            (envW.split "hello world" 500 100)
            (envW.embed (envW.split "hello world" 500 100))).length⟩ :=
  process_and_save_idempotent "u" "t" "u2" "t2" "hello world" envW ⟨[], [], 0⟩
    (by decide) (by simp) (by simp) (by simp [envW]) rfl

/-- Claim C4 (confirmed). For every distance collaborator, query embedding,
`top_k`, threshold and store, the sequence returned by
`search_similar_chunks` is non-increasing in the `similarity` field, and no
returned element has similarity strictly below the threshold. -/
theorem search_results_sorted_and_above_threshold
    (dist : List ℚ → List ℚ → ℚ) (q : List ℚ) (topK : Nat) (thr : ℚ)
    (rows : List EmbeddedChunk) :
    ((search_similar_chunks_core dist q topK thr rows).Pairwise
      (fun a b => b.similarity ≤ a.similarity))
    ∧ (∀ r ∈ search_similar_chunks_core dist q topK thr rows,
        thr ≤ r.similarity) := by
  unfold search_similar_chunks_core
  split
  · exact ⟨List.Pairwise.nil, by simp⟩
  · rw [map_pyFloatValue_eq]
    constructor
    · exact List.Pairwise.sublist (List.filter_sublist _)
        (sqlTopRows_sorted dist q rows (topK * 2))
    · intro r hr
      have := List.of_mem_filter hr
      exact of_decide_eq_true this

theorem search_results_sorted_witness :
    ((search_similar_chunks_core dZero [1] 5 (3/10) [wChunkA]).Pairwise
      (fun a b => b.similarity ≤ a.similarity))
    ∧ (3/10 : ℚ) ≤ wScoredA.similarity :=
  ⟨(search_results_sorted_and_above_threshold dZero [1] 5 (3/10) [wChunkA]).1,
    (search_results_sorted_and_above_threshold dZero [1] 5 (3/10) [wChunkA]).2
      wScoredA (by
        norm_num [search_similar_chunks_core, sqlTopRows, similarityScores,
          List.insertionSort, pyFloatValue, wChunkA, wScoredA, dZero])⟩

/-- Claim C5 (counterexample). The claim says `rag_search` fails with
`EmptyQueryError` before any I/O on an empty or whitespace-only query.  The
code has no such check (and the repository defines no `EmptyQueryError`):
with query `""` or `"   "` the embedding call — I/O — is performed exactly
once and the call returns normally. -/
theorem rag_search_embeds_empty_query :
    ((rag_search "" 5 (3/10) (fun _ => .ok [1]) dZero (.ok ⟨[], false⟩)).2.embedCalls = 1
      ∧ (rag_search "" 5 (3/10) (fun _ => .ok [1]) dZero (.ok ⟨[], false⟩)).1 = .noDocuments)
    ∧ ((rag_search "   " 5 (3/10) (fun _ => .ok [1]) dZero (.ok ⟨[], false⟩)).2.embedCalls = 1
      ∧ (rag_search "   " 5 (3/10) (fun _ => .ok [1]) dZero (.ok ⟨[], false⟩)).1 = .noDocuments) := by
  constructor <;> constructor <;> rfl

/-- Claim C5 (amended). `rag_search` performs no query validation at all:
every call, whatever the query, performs exactly one embedding call, and an
exception raised by the embedding provider is caught and rendered as an
error string rather than propagated. -/
theorem rag_search_always_embeds
    (query : String) (topK : Nat) (thr : ℚ)
    (embedOutcome : String → EmbedOutcome) (dist : List ℚ → List ℚ → ℚ)
    (connOutcome : Except OperationalError DBConn) :
    (rag_search query topK thr embedOutcome dist connOutcome).2.embedCalls = 1
    ∧ (∀ msg, embedOutcome query = .raise msg →
        (rag_search query topK thr embedOutcome dist connOutcome).1 =
          .errorString ("检索过程中发生错误: " ++ msg)) := by
  constructor
  · unfold rag_search
    split
    · rfl
    · split <;> rfl
  · intro msg hmsg
    unfold rag_search
    rw [hmsg]

theorem rag_search_always_embeds_witness :
    (rag_search "q" 5 (3/10) (fun _ => .raise "boom") dZero (.ok ⟨[], false⟩)).2.embedCalls = 1
    ∧ (rag_search "q" 5 (3/10) (fun _ => .raise "boom") dZero (.ok ⟨[], false⟩)).1 =
        .errorString ("检索过程中发生错误: " ++ "boom") :=
  ⟨(rag_search_always_embeds "q" 5 (3/10) (fun _ => .raise "boom") dZero (.ok ⟨[], false⟩)).1,
    (rag_search_always_embeds "q" 5 (3/10) (fun _ => .raise "boom") dZero
      (.ok ⟨[], false⟩)).2 "boom" rfl⟩

/-- Claim C6 (refuted; evaluation at the failing input). The claim says the
configured embedding dimensionality equals the store's vector column
dimensionality, with any mismatch raising `DimensionMismatch` at first use.
In the code both embedding clients are configured with `dimensions=1024`
(their comments even say this matches the database schema), while migration
002 declares the column as `vector(1536)`; no `DimensionMismatch` exists
anywhere, and a 1024-dimensional vector is simply rejected by the 1536
column at insert time. -/
theorem embedding_dimensions_mismatch_schema :
    ragToolsEmbeddingDimensions = 1024
    ∧ ingestionEmbeddingDimensions = 1024
    ∧ documentChunkEmbeddingDimensions = 1536
    ∧ ragToolsEmbeddingDimensions ≠ documentChunkEmbeddingDimensions
    ∧ vectorColumnAccepts documentChunkEmbeddingDimensions
        (List.replicate ingestionEmbeddingDimensions 0) = false := by
  refine ⟨rfl, rfl, rfl, by decide, ?_⟩
  rw [vectorColumnAccepts, List.length_replicate]
  decide

/-- Claim C7 (confirmed). After `save_chunks_to_db` inserts the pieces of
one chunking pass for a document with no pre-existing chunks, the stored
`chunk_index` values of that document are exactly `0..n-1` in order, where
`n` is the number of pieces (the embedding provider returning one vector per
piece, as its contract states). -/
theorem save_chunks_indices_contiguous
    (document_id : Nat) (chunks : List String) (env : IngestEnv) (st : DBState)
    (hfresh : ∀ c ∈ st.chunks, c.document_id ≠ document_id)
    (hembed : (env.embed chunks).length = chunks.length) :
    ((save_chunks_to_db document_id chunks env st).1.chunks.filter
        (fun c => c.document_id == document_id)).map ChunkRow.chunk_index
      = List.range chunks.length := by
  have hfilter0 : st.chunks.filter (fun c => c.document_id == document_id) = [] := by
    rw [List.filter_eq_nil_iff]
    intro c hc
    simp [hfresh c hc]
  unfold save_chunks_to_db
  split
  · next hempty =>
      rw [List.isEmpty_iff] at hempty
      simp [hfilter0, hempty]
  · simp only [List.filter_append, hfilter0, List.nil_append]
    have hall : (chunkRowsFor document_id chunks (env.embed chunks)).filter
        (fun c => c.document_id == document_id) =
        chunkRowsFor document_id chunks (env.embed chunks) := by
      rw [List.filter_eq_self]
      intro c hc
      unfold chunkRowsFor at hc
      obtain ⟨p, _, rfl⟩ := List.mem_map.mp hc
      simp
    rw [hall]
    unfold chunkRowsFor
    rw [List.map_map]
    have hcomp : ((chunks.zip (env.embed chunks)).enum.map
        (ChunkRow.chunk_index ∘ fun p => ⟨document_id, p.1, p.2.1, some p.2.2⟩))
        = (chunks.zip (env.embed chunks)).enum.map Prod.fst :=
      List.map_congr_left (fun p _ => rfl)
    rw [hcomp, List.enum_map_fst, List.length_zip, hembed, Nat.min_self]

theorem save_chunks_indices_contiguous_witness :
    ((save_chunks_to_db 0 ["a", "b"] envW ⟨[], [], 0⟩).1.chunks.filter
        (fun c => c.document_id == 0)).map ChunkRow.chunk_index
      = List.range (["a", "b"] : List String).length :=
  save_chunks_indices_contiguous 0 ["a", "b"] envW ⟨[], [], 0⟩
    (by intro c hc; simp at hc) (by rfl)

/-- Claim C8 (counterexample). The claim says `split_text` with
`chunk_size <= 0` or `chunk_overlap >= chunk_size` fails with
`InvalidParameters`, the boundary `chunk_overlap = chunk_size` included.
The repository defines no `InvalidParameters` and `create_splitter` adds no
validation; the only check on the path (the third-party splitter
constructor) accepts `chunk_overlap = chunk_size` (here 4 = 4), accepts
`chunk_size = 0`, and accepts negative parameters. -/
theorem create_splitter_accepts_boundary_params :
    create_splitter 4 4 = .ok ⟨4, 4⟩
    ∧ create_splitter 0 0 = .ok ⟨0, 0⟩
    ∧ create_splitter (-3) (-5) = .ok ⟨-3, -5⟩ := by
  refine ⟨?_, ?_, ?_⟩ <;> rfl

/-- Claim C8 (amended). The `split_text` path rejects its parameters only
when `chunk_overlap > chunk_size` (a `ValueError` from the third-party
splitter constructor — the repository itself validates nothing and defines
no `InvalidParameters`); every pair with `chunk_overlap ≤ chunk_size`,
including `chunk_size ≤ 0` and the boundary `chunk_overlap = chunk_size`,
is accepted unchanged. -/
theorem split_text_rejects_only_larger_overlap
    (chunk_size chunk_overlap : Int) :
    (chunk_overlap ≤ chunk_size →
      split_text_params chunk_size chunk_overlap = .ok ⟨chunk_size, chunk_overlap⟩)
    ∧ (chunk_size < chunk_overlap →
      split_text_params chunk_size chunk_overlap =
        .error ("Got a larger chunk overlap than chunk size, should be smaller.")) := by
  unfold split_text_params create_splitter textSplitterInit
  constructor
  · intro h
    rw [if_neg (not_lt.mpr h)]
  · intro h
    rw [if_pos h]

theorem split_text_rejects_only_larger_overlap_witness :
    split_text_params 500 100 = .ok ⟨500, 100⟩
    ∧ split_text_params 100 500 =
        .error ("Got a larger chunk overlap than chunk size, should be smaller.") :=
  ⟨(split_text_rejects_only_larger_overlap 500 100).1 (by decide),
    (split_text_rejects_only_larger_overlap 100 500).2 (by decide)⟩

/-- Claim C9 (confirmed). When the store holds no chunk row with a non-null
embedding, `search_similar_chunks` returns the empty list wrapped in a
normal return — it raises nothing — for every query embedding, `top_k` and
threshold. -/
theorem search_empty_index_returns_empty
    (dist : List ℚ → List ℚ → ℚ) (q : List ℚ) (topK : Nat) (thr : ℚ)
    (conn : DBConn) (h : conn.embeddedChunks = []) :
    search_similar_chunks dist q topK thr (.ok conn) = .ok [] := by
  unfold search_similar_chunks get_db_connection
  split
  · rfl
  · simp only []
    split
    · rfl
    · simp [search_similar_chunks_core, h]

theorem search_empty_index_returns_empty_witness :
    search_similar_chunks dZero [1] 5 (3/10) (.ok ⟨[], false⟩) = .ok [] :=
  search_empty_index_returns_empty dZero [1] 5 (3/10) ⟨[], false⟩ rfl

/-- Claim C10 (confirmed). `search_similar_chunks` raises only when the
initial connection cannot be established: an empty query embedding returns
`[]` before any connection attempt; any raised error is the
`ConnectionError` produced by `get_db_connection` (so it requires a
non-empty embedding and a failed connection); and once a connection exists,
an exception during query execution or result processing yields a normal
`[]` return, indistinguishable from "no relevant content found". -/
theorem search_raises_only_on_connection_failure
    (dist : List ℚ → List ℚ → ℚ) (q : List ℚ) (topK : Nat) (thr : ℚ)
    (connOutcome : Except OperationalError DBConn) :
    (q = [] → search_similar_chunks dist q topK thr connOutcome = .ok [])
    ∧ (∀ e, search_similar_chunks dist q topK thr connOutcome = .error e →
        q ≠ [] ∧ ∃ pe, connOutcome = .error pe
          ∧ e.msg = "数据库连接失败: " ++ pe.msg)
    ∧ (∀ conn, connOutcome = .ok conn → conn.execFault = true →
        search_similar_chunks dist q topK thr connOutcome = .ok []) := by
  refine ⟨?_, ?_, ?_⟩
  · intro hq
    simp [search_similar_chunks, hq]
  · intro e he
    unfold search_similar_chunks at he
    by_cases hq : q.isEmpty
    · simp [hq] at he
    · constructor
      · intro hnil
        exact hq (by simp [hnil])
      · rw [if_neg hq] at he
        match hco : connOutcome with
        | .error pe =>
            refine ⟨pe, rfl, ?_⟩
            simp [get_db_connection] at he
            rw [← he]
        | .ok conn =>
            exfalso
            simp [get_db_connection] at he
            split at he <;> simp_all
  · intro conn hco hf
    rw [hco]
    simp [search_similar_chunks, get_db_connection, hf]

theorem search_raises_only_on_connection_failure_witness :
    search_similar_chunks dZero [] 5 (3/10) (.ok ⟨[], false⟩) = .ok []
    ∧ (([1] : List ℚ) ≠ []
        ∧ ∃ pe, (Except.error ⟨"down"⟩ : Except OperationalError DBConn) = .error pe
          ∧ DBConnectionError.msg ⟨"数据库连接失败: " ++ "down"⟩ = "数据库连接失败: " ++ pe.msg)
    ∧ search_similar_chunks dZero [1] 5 (3/10) (.ok ⟨[wChunkA], true⟩) = .ok [] :=
  ⟨(search_raises_only_on_connection_failure dZero [] 5 (3/10) (.ok ⟨[], false⟩)).1 rfl,
    (search_raises_only_on_connection_failure dZero [1] 5 (3/10)
      (.error ⟨"down"⟩)).2.1 ⟨"数据库连接失败: " ++ "down"⟩ rfl,
    (search_raises_only_on_connection_failure dZero [1] 5 (3/10)
      (.ok ⟨[wChunkA], true⟩)).2.2 ⟨[wChunkA], true⟩ rfl rfl⟩
